import Mathlib

/-!
Verification of the `ViewList` component from
`src/packages/dataviews/src/view-list.js`, embedded shallowly.

The component props (`view`, `fields`, `data`, `getItemId`,
`onSelectionChange`, `selection`, `deferredRendering`) are mirrored as a
structure. Event handlers are modelled as functions returning the list of
argument sequences they pass to `onSelectionChange`; a render pass is a
function from the props (plus the reveal scheduler's tick count) to either
a JavaScript `TypeError` or the rendered item list together with the
post-render state of the caller-supplied data, selection and fields.
-/

namespace ViewListSpec

/-- A JavaScript value as used for item keys: the source computes
`getItemId?.( item ) || index`, so truthiness matters. -/
inductive JSVal where
  | num : Int → JSVal
  | str : String → JSVal
  | undef : JSVal
deriving DecidableEq

/-- JavaScript truthiness for the modelled values: `0`, the empty string
and `undefined` are falsy. -/
def JSVal.truthy : JSVal → Bool
  | .num n => n != 0
  | .str s => s != ""
  | .undef => false

/-- An item: an opaque record with a stable `id`; `selection.includes( item.id )`
reads only the id. -/
structure Item where
  id : Int
deriving DecidableEq

/-- A presentation-hint entry of a field descriptor; the source filters the
primary field's formats by `format.type !== 'link'`. -/
structure Format where
  type : String
deriving DecidableEq

/-- A field descriptor `\x7b id, render, formats \x7d`. `render` produces a
displayable value, modelled as a string; the primary field's `formats`
array is read unguarded by the source, so it is modelled as always present. -/
structure Field where
  id : String
  formats : List Format
  render : Item → String

/-- `view.layout`: which field id is the media field and which the primary
field; either may be absent (`undefined`). -/
structure ViewLayout where
  primaryField : Option String
  mediaField : Option String

/-- The `view` prop: layout plus the `hiddenFields` id list. -/
structure View where
  layout : ViewLayout
  hiddenFields : List String

/-- The props of `ViewList` (`onSelectionChange` itself is left abstract:
handlers return the call arguments they would pass to it). -/
structure ViewListProps where
  view : View
  fields : List Field
  data : List Item
  getItemId : Option (Item → JSVal)
  selection : List Int
  deferredRendering : Bool

/-- Modelled from the spec: `ENTER` from `@wordpress/keycodes` (the package
is not under `src/`); the key code of the Enter key. -/
def ENTER : Nat := 13

/-- Modelled from the spec: `SPACE` from `@wordpress/keycodes` (the package
is not under `src/`); the key code of the Space key. -/
def SPACE : Nat := 32

/-- Modelled from the spec: the incremental reveal scheduler `useAsyncList`
from `@wordpress/compose` is not under `src/`. Per the spec it produces a
monotonically growing prefix of the full list, `step` items added per
scheduling tick, so after `ticks` ticks it exposes `data.take (step * ticks)`. -/
def revealShown (data : List Item) (step ticks : Nat) : List Item :=
  data.take (step * ticks)

/-- The `onEnter` handler (view-list.js lines 44-49): on key codes ENTER or
SPACE it calls `onSelectionChange( [ item ] )`, otherwise nothing.
The result lists the argument of each call made. -/
def onEnter (item : Item) (keyCode : Nat) : List (List Item) :=
  if [ENTER, SPACE].contains keyCode then [[item]] else []

/-- The list key of a rendered item (view-list.js line 55):
`getItemId?.( item ) || index`. -/
def itemKey (getItemId : Option (Item → JSVal)) (item : Item) (index : Nat) : JSVal :=
  match getItemId with
  | none => JSVal.num (index : Int)
  | some f => if (f item).truthy then f item else JSVal.num (index : Int)

/-- The media column content: `mediaField?.render( \x7b item \x7d ) || <placeholder>`. -/
inductive MediaSlot where
  | thumb : String → MediaSlot
  | placeholder : MediaSlot
deriving DecidableEq

/-- Renders the media wrapper of one item: the media field's render output,
or the placeholder element when the field is absent or its output is falsy. -/
def mediaSlot (mediaField : Option Field) (item : Item) : MediaSlot :=
  match mediaField with
  | none => MediaSlot.placeholder
  | some mf => if mf.render item = "" then MediaSlot.placeholder else MediaSlot.thumb (mf.render item)

/-- `field.id === view.layout.primaryField` (and likewise for the media
field): a string id compared against a possibly absent configured id. -/
def matchesId (target : Option String) (f : Field) : Bool :=
  some f.id == target

/-- `primaryField.formats = primaryField.formats.filter( format => format.type !== 'link' )`
as a transformation of the mutated descriptor. -/
def stripLinkFormats (f : Field) : Field :=
  { f with formats := f.formats.filter (fun fm => fm.type != "link") }

/-- In-place mutation of the object `fields.find` returned: only the first
element satisfying `p` is replaced by its image under `g`. -/
def mutateFirst (p : Field → Bool) (g : Field → Field) : List Field → List Field
  | [] => []
  | f :: fs => if p f then g f :: fs else f :: mutateFirst p g fs

/-- `visibleFields` (view-list.js lines 36-42): fields neither in
`view.hiddenFields` nor equal to the primary or media field id. -/
def visibleFields (view : View) (fields : List Field) : List Field :=
  fields.filter (fun field =>
    !(view.hiddenFields.contains field.id) &&
    !(([view.layout.primaryField, view.layout.mediaField]).contains (some field.id)))

/-- One rendered `<li>`: its key, pressed/selected visual state, the two
event handlers (as the `onSelectionChange` calls they emit), and the
media/primary/secondary content. -/
structure RenderedItem where
  item : Item
  key : JSVal
  pressed : Bool
  selectedClass : Bool
  onClick : Unit → List (List Item)
  onKeyDown : Nat → List (List Item)
  media : MediaSlot
  primary : Option String
  secondary : List (String × String)

/-- Renders one item of `usedData` (view-list.js lines 53-102):
`aria-pressed` and the selected class are `selection.includes( item.id )`,
`onClick` emits `onSelectionChange( [ item ] )`, `onKeyDown` is `onEnter( item )`. -/
def renderItem (props : ViewListProps) (mediaField primaryField : Option Field)
    (vFields : List Field) (index : Nat) (item : Item) : RenderedItem :=
  { item := item
    key := itemKey props.getItemId item index
    pressed := props.selection.contains item.id
    selectedClass := props.selection.contains item.id
    onClick := fun _ => [[item]]
    onKeyDown := onEnter item
    media := mediaSlot mediaField item
    primary := primaryField.map (fun f => f.render item)
    secondary := vFields.map (fun f => (f.id, f.render item)) }

/-- The state of the caller-supplied references after a render pass. -/
structure PostState where
  data : List Item
  selection : List Int
  fields : List Field

/-- One render pass of `ViewList` (view-list.js lines 16-104) after `ticks`
scheduling ticks of the reveal scheduler. Mirrors the source order:
`shownData = useAsyncList( data, \x7b step: 3 \x7d )`, `usedData`, the
`mediaField`/`primaryField` lookups, the unguarded
`primaryField.formats = primaryField.formats.filter( ... )` (a `TypeError`
when no field matched the primary field id), `visibleFields`, then the map
over `usedData`. The returned `PostState` records what the pass did to the
caller's `data`, `selection` and `fields`. -/
def renderPass (props : ViewListProps) (ticks : Nat) :
    Except String (List RenderedItem × PostState) :=
  let shownData := revealShown props.data 3 ticks
  let usedData := if props.deferredRendering then shownData else props.data
  let mediaField := props.fields.find? (matchesId props.view.layout.mediaField)
  match props.fields.find? (matchesId props.view.layout.primaryField) with
  | none => Except.error "TypeError: cannot read formats of undefined"
  | some pf =>
      let pf := stripLinkFormats pf
      let fields := mutateFirst (matchesId props.view.layout.primaryField) stripLinkFormats props.fields
      let vFields := visibleFields props.view fields
      let rendered := usedData.enum.map (fun x => renderItem props mediaField (some pf) vFields x.1 x.2)
      Except.ok (rendered,
        { data := props.data, selection := props.selection, fields := fields })

/-! Concrete fixtures used by witnesses and counterexamples; `exProps` is the
spec scenario: items `[1, 2, 3]`, selection `[2]`, a primary field `title`
carrying a `link` format, a media field `img`, and a hidden field `notes`. -/

def exItems : List Item := [⟨1⟩, ⟨2⟩, ⟨3⟩]

def exFields : List Field :=
  [ { id := "title", formats := [{ type := "link" }, { type := "bold" }],
      render := fun it => "T" ++ toString it.id },
    { id := "img", formats := [], render := fun it => "I" ++ toString it.id },
    { id := "author", formats := [], render := fun _ => "A" },
    { id := "notes", formats := [], render := fun _ => "N" } ]

def exView : View :=
  { layout := { primaryField := some "title", mediaField := some "img" },
    hiddenFields := ["notes"] }

def exProps : ViewListProps :=
  { view := exView, fields := exFields, data := exItems, getItemId := none,
    selection := [2], deferredRendering := false }

/-- The same fixture with `deferredRendering` switched on. -/
def exPropsDeferred : ViewListProps :=
  { exProps with deferredRendering := true }

/-- A configuration in which no field id equals the configured primary field
id because the fields list is empty. -/
def noPrimaryProps : ViewListProps :=
  { view := { layout := { primaryField := some "title", mediaField := none },
              hiddenFields := [] },
    fields := [], data := [⟨1⟩], getItemId := none, selection := [],
    deferredRendering := false }

/-- A configuration with a non-empty fields list in which still no field id
equals the configured primary field id. -/
def noPrimaryProps2 : ViewListProps :=
  { view := { layout := { primaryField := some "title", mediaField := none },
              hiddenFields := [] },
    fields := [{ id := "author", formats := [], render := fun _ => "A" }],
    data := [⟨1⟩], getItemId := none, selection := [], deferredRendering := false }

/-- C1: a pointer click on a rendered item's interactive region emits exactly
one `onSelectionChange` call, whose argument is the single-element sequence
holding exactly that item; this is independent of the prior selection state
(`props.selection` is universally quantified) and never additive. -/
theorem click_emits_single_selection (props : ViewListProps)
    (mediaField primaryField : Option Field) (vFields : List Field)
    (index : Nat) (item : Item) :
    ((renderItem props mediaField primaryField vFields index item).onClick ()).length = 1 ∧
    (renderItem props mediaField primaryField vFields index item).onClick () = [[item]] :=
  ⟨rfl, rfl⟩

/-- C3: a keydown whose key code is ENTER or SPACE on an item's row emits the
same single `onSelectionChange( [ item ] )` call as a click on that item;
any other key code emits no call at all. -/
theorem keydown_enter_space_matches_click (props : ViewListProps)
    (mediaField primaryField : Option Field) (vFields : List Field)
    (index : Nat) (item : Item) (keyCode : Nat) :
    (renderItem props mediaField primaryField vFields index item).onKeyDown keyCode =
      if keyCode = ENTER ∨ keyCode = SPACE
      then (renderItem props mediaField primaryField vFields index item).onClick ()
      else [] := by
  by_cases h1 : keyCode = ENTER <;> by_cases h2 : keyCode = SPACE <;>
    simp [renderItem, onEnter, h1, h2]

/-- C10: the list key falls back to the positional index not only when
`getItemId` is absent but whenever the supplied `getItemId` returns a falsy
value for the item (e.g. the id `0` or the empty string), because the
source computes the key as `getItemId?.( item ) || index`. -/
theorem itemKey_falls_back_on_falsy (getItemId : Option (Item → JSVal))
    (item : Item) (index : Nat)
    (h : ∀ f, getItemId = some f → (f item).truthy = false) :
    itemKey getItemId item index = JSVal.num (index : Int) := by
  cases getItemId with
  | none => rfl
  | some f => simp [itemKey, h f rfl]

/-- Witness for C10: the fallback fires for an absent `getItemId`, for one
returning the number `0`, and for one returning the empty string. -/
theorem itemKey_falls_back_on_falsy_witness :
    itemKey none (⟨7⟩ : Item) 4 = JSVal.num 4 ∧
    itemKey (some fun _ => JSVal.num 0) (⟨7⟩ : Item) 4 = JSVal.num 4 ∧
    itemKey (some fun _ => JSVal.str "") (⟨7⟩ : Item) 5 = JSVal.num 5 :=
  ⟨itemKey_falls_back_on_falsy none ⟨7⟩ 4 (by intro f hf; cases hf),
   itemKey_falls_back_on_falsy _ ⟨7⟩ 4 (by intro f hf; cases hf; rfl),
   itemKey_falls_back_on_falsy _ ⟨7⟩ 5 (by intro f hf; cases hf; rfl)⟩

/-- C9: with batch size 3 and an N-item list, the revealed count after `t`
ticks is `min (3 * t) N`, so across successive ticks the counts are
non-decreasing (3, 6, 9, ...) and clamp to N; after the final tick the
whole list is revealed, and the revealed state is always a prefix of the
full item list. -/
theorem reveal_counts (data : List Item) (t u : Nat) :
    (revealShown data 3 t).length = min (3 * t) data.length ∧
    (t ≤ u → (revealShown data 3 t).length ≤ (revealShown data 3 u).length) ∧
    (data.length ≤ 3 * t → revealShown data 3 t = data) ∧
    (∃ rest, revealShown data 3 t ++ rest = data) := by
  refine ⟨List.length_take _ _, ?_, ?_, ⟨data.drop (3 * t), List.take_append_drop _ _⟩⟩
  · intro h
    simp only [revealShown, List.length_take]
    omega
  · intro h
    exact List.take_of_length_le h

/-- Witness for C9, on the three-item fixture at ticks 1 and 2. -/
theorem reveal_counts_witness :
    (revealShown exItems 3 1).length = min (3 * 1) exItems.length ∧
    (revealShown exItems 3 1).length ≤ (revealShown exItems 3 2).length ∧
    revealShown exItems 3 1 = exItems ∧
    ∃ rest, revealShown exItems 3 1 ++ rest = exItems :=
  ⟨(reveal_counts exItems 1 2).1,
   (reveal_counts exItems 1 2).2.1 (by decide),
   (reveal_counts exItems 1 2).2.2.1 (by decide),
   (reveal_counts exItems 1 2).2.2.2⟩

/-- C4: the visible fields are exactly the fields that are neither hidden
nor configured as the media or primary field (even when those are not
separately marked hidden), and they appear in the original field order
(the result is a sublist of the input). -/
theorem visibleFields_characterization (view : View) (fields : List Field) :
    (∀ f, f ∈ visibleFields view fields ↔
      f ∈ fields ∧ f.id ∉ view.hiddenFields ∧
      some f.id ≠ view.layout.primaryField ∧ some f.id ≠ view.layout.mediaField) ∧
    (visibleFields view fields).Sublist fields := by
  constructor
  · intro f
    simp [visibleFields, List.mem_filter, not_or, and_assoc]
  · exact List.filter_sublist _

/-! Helper lemmas about `renderPass`. -/

/-- When a field matching the primary field id exists, `renderPass` succeeds
and its result is the rendered map over the used data together with the
post-state in which only `fields` changed. -/
theorem renderPass_ok_of_find (props : ViewListProps) (ticks : Nat) (pf : Field)
    (hf : props.fields.find? (matchesId props.view.layout.primaryField) = some pf) :
    renderPass props ticks =
      Except.ok
        (((if props.deferredRendering then revealShown props.data 3 ticks
           else props.data).enum.map
          (fun x => renderItem props
            (props.fields.find? (matchesId props.view.layout.mediaField))
            (some (stripLinkFormats pf))
            (visibleFields props.view
              (mutateFirst (matchesId props.view.layout.primaryField)
                stripLinkFormats props.fields))
            x.1 x.2)),
         { data := props.data, selection := props.selection,
           fields := mutateFirst (matchesId props.view.layout.primaryField)
             stripLinkFormats props.fields }) := by
  simp [renderPass, hf]

/-- When no field matches the primary field id, `renderPass` throws. -/
theorem renderPass_error_of_find_none (props : ViewListProps) (ticks : Nat)
    (hf : props.fields.find? (matchesId props.view.layout.primaryField) = none) :
    renderPass props ticks = Except.error "TypeError: cannot read formats of undefined" := by
  simp [renderPass, hf]

/-- A successful `renderPass` implies a field matched the primary field id. -/
theorem renderPass_ok_find (props : ViewListProps) (ticks : Nat)
    (res : List RenderedItem × PostState)
    (h : renderPass props ticks = Except.ok res) :
    ∃ pf, props.fields.find? (matchesId props.view.layout.primaryField) = some pf := by
  cases hf : props.fields.find? (matchesId props.view.layout.primaryField) with
  | none => rw [renderPass_error_of_find_none props ticks hf] at h; cases h
  | some pf => exact ⟨pf, rfl⟩

/-- Projecting the item out of the rendered list returns the rendered data. -/
theorem map_item_enum_render (props : ViewListProps) (mf pf : Option Field)
    (vf : List Field) (l : List Item) :
    ((l.enum.map fun x => renderItem props mf pf vf x.1 x.2).map RenderedItem.item) = l := by
  rw [List.map_map]
  have h : (RenderedItem.item ∘ fun x : Nat × Item => renderItem props mf pf vf x.1 x.2)
      = Prod.snd := rfl
  rw [h]
  exact List.enumFrom_map_snd 0 l

/-- `mutateFirst` commutes with `find?` when the mutation preserves the
predicate: the first hit is returned mutated. -/
theorem find?_mutateFirst (p : Field → Bool) (g : Field → Field)
    (hg : ∀ f, p (g f) = p f) (l : List Field) :
    (mutateFirst p g l).find? p = (l.find? p).map g := by
  induction l with
  | nil => rfl
  | cons f fs ih =>
    by_cases hpf : p f = true
    · have hgf : p (g f) = true := (hg f).trans hpf
      simp [mutateFirst, hpf, List.find?_cons_of_pos _ hgf, List.find?_cons_of_pos _ hpf]
    · have hpf' : ¬p f := by simpa using hpf
      simp [mutateFirst, hpf, List.find?_cons_of_neg _ hpf', ih]

/-- C2: the code evaluated at the claim's inputs. When no field id equals the
configured primary field id — the fields list being empty or not — the
unguarded `primaryField.formats` access makes the render pass throw a
`TypeError` instead of degrading gracefully. -/
theorem missing_primary_field_raises :
    renderPass noPrimaryProps 0
      = Except.error "TypeError: cannot read formats of undefined" ∧
    renderPass noPrimaryProps2 0
      = Except.error "TypeError: cannot read formats of undefined" ∧
    noPrimaryProps.fields = [] ∧
    noPrimaryProps2.fields.find? (matchesId noPrimaryProps2.view.layout.primaryField) = none :=
  ⟨rfl, rfl, rfl, rfl⟩

/-- C5: whenever some field's id matches the configured primary field id, the
render pass succeeds and, after its normalization, the primary field's
formats contain no entry whose type is "link". -/
theorem primary_field_formats_no_link (props : ViewListProps) (ticks : Nat)
    (h : ∃ f, f ∈ props.fields ∧ matchesId props.view.layout.primaryField f = true) :
    ∃ res pf, renderPass props ticks = Except.ok res ∧
      res.2.fields.find? (matchesId props.view.layout.primaryField) = some pf ∧
      ∀ fm ∈ pf.formats, fm.type ≠ "link" := by
  have hs : (props.fields.find? (matchesId props.view.layout.primaryField)).isSome :=
    List.find?_isSome.mpr h
  obtain ⟨pf0, hf⟩ := Option.isSome_iff_exists.mp hs
  refine ⟨_, stripLinkFormats pf0, renderPass_ok_of_find props ticks pf0 hf, ?_, ?_⟩
  · rw [find?_mutateFirst (matchesId props.view.layout.primaryField) stripLinkFormats
      (fun _ => rfl) props.fields, hf]
    rfl
  · intro fm hm
    have := List.mem_filter.mp hm
    simpa using this.2

/-- Witness for C5, on the fixture whose `title` field carries a link format. -/
theorem primary_field_formats_no_link_witness :
    (∃ f, f ∈ exProps.fields ∧ matchesId exProps.view.layout.primaryField f = true) ∧
    (∃ res pf, renderPass exProps 0 = Except.ok res ∧
      res.2.fields.find? (matchesId exProps.view.layout.primaryField) = some pf ∧
      ∀ fm ∈ pf.formats, fm.type ≠ "link") :=
  ⟨by decide, primary_field_formats_no_link exProps 0 (by decide)⟩

/-- C6: a successful render pass renders exactly the full `data` sequence
when `deferredRendering` is false, and exactly the reveal scheduler's
current prefix (batch size 3) when it is true. -/
theorem deferred_rendering_selects_source (props : ViewListProps) (ticks : Nat)
    (res : List RenderedItem × PostState)
    (h : renderPass props ticks = Except.ok res) :
    res.1.map RenderedItem.item =
      if props.deferredRendering then revealShown props.data 3 ticks else props.data := by
  obtain ⟨pf, hf⟩ := renderPass_ok_find props ticks res h
  rw [renderPass_ok_of_find props ticks pf hf] at h
  injection h with h'
  subst h'
  exact map_item_enum_render props _ _ _ _

/-- Witness for C6: the fixture rendered immediately and deferred after one tick. -/
theorem deferred_rendering_selects_source_witness :
    (∃ res, renderPass exProps 0 = Except.ok res ∧
      res.1.map RenderedItem.item =
        if exProps.deferredRendering then revealShown exProps.data 3 0 else exProps.data) ∧
    (∃ res, renderPass exPropsDeferred 1 = Except.ok res ∧
      res.1.map RenderedItem.item =
        if exPropsDeferred.deferredRendering then revealShown exPropsDeferred.data 3 1
        else exPropsDeferred.data) :=
  ⟨⟨_, rfl, deferred_rendering_selects_source exProps 0 _ rfl⟩,
   ⟨_, rfl, deferred_rendering_selects_source exPropsDeferred 1 _ rfl⟩⟩

/-- C7 counterexample: a render pass does have a side effect beyond invoking
the provided callbacks — it rewrites the primary field descriptor's
`formats` in place, so the caller's fields differ after the pass. -/
theorem render_mutates_primary_formats :
    ∃ res, renderPass exProps 0 = Except.ok res ∧
      res.2.fields.map Field.formats ≠ exProps.fields.map Field.formats :=
  ⟨_, rfl, by decide⟩

/-- C7 amended: a render pass never mutates the caller's `data` (items) or
`selection`; its only mutation is the in-place normalization of the
primary field's formats within `fields`. -/
theorem render_preserves_data_and_selection (props : ViewListProps) (ticks : Nat)
    (res : List RenderedItem × PostState)
    (h : renderPass props ticks = Except.ok res) :
    res.2.data = props.data ∧ res.2.selection = props.selection ∧
    res.2.fields = mutateFirst (matchesId props.view.layout.primaryField)
      stripLinkFormats props.fields := by
  obtain ⟨pf, hf⟩ := renderPass_ok_find props ticks res h
  rw [renderPass_ok_of_find props ticks pf hf] at h
  injection h with h'
  subst h'
  exact ⟨rfl, rfl, rfl⟩

/-- Witness for the amended C7, on the fixture. -/
theorem render_preserves_data_and_selection_witness :
    ∃ res, renderPass exProps 0 = Except.ok res ∧
      (res.2.data = exProps.data ∧ res.2.selection = exProps.selection ∧
       res.2.fields = mutateFirst (matchesId exProps.view.layout.primaryField)
         stripLinkFormats exProps.fields) :=
  ⟨_, rfl, render_preserves_data_and_selection exProps 0 _ rfl⟩

/-- C8: a rendered item is marked pressed (and carries the selected class)
exactly when its id is in the selection; on the scenario with items
1, 2, 3 and selection consisting of 2, the rendered pressed states are
false, true, false — item 2 pressed, item 3 not. -/
theorem pressed_iff_selected :
    (∀ (props : ViewListProps) (mf pf : Option Field) (vf : List Field)
        (index : Nat) (item : Item),
      ((renderItem props mf pf vf index item).pressed = true ↔
        item.id ∈ props.selection) ∧
      (renderItem props mf pf vf index item).selectedClass =
        (renderItem props mf pf vf index item).pressed) ∧
    (∃ res, renderPass exProps 0 = Except.ok res ∧
      res.1.map RenderedItem.pressed = [false, true, false]) := by
  refine ⟨fun props mf pf vf index item => ⟨?_, rfl⟩, ⟨_, rfl, by decide⟩⟩
  simp [renderItem, List.contains]

end ViewListSpec
